import Mathlib

/-!
Shallow embedding of the prepaid-card purchase backend (`main.py`, `schemas.py`).

The payment provider is selected once per process from the environment
(`PAYMENT_PROVIDER` in `main.py`); we pass it as an explicit parameter.
External collaborators are modelled as oracles passed to the handlers:
the result of `stripe.checkout.Session.create` (session url, or the raised
exception's message) and of `stripe.checkout.Session.retrieve` (a session
value, or the raised exception's message).  The notification stub
(`_send_confirmation_email`) only prints, so it has no modelled effect.
Document identifiers are abstract strings; the database layer is modelled
as always available.
-/

namespace PrepaidBackend

/-- The provider variant `Literal["stripe", "mock"]` from `main.py`. -/
inductive Provider where
  | stripe
  | mock
deriving DecidableEq

/-- The payment status `Literal["pending", "paid", "failed"]` from
`schemas.PrepaidCardPurchase`. -/
inductive PayStatus where
  | pending
  | paid
  | failed
deriving DecidableEq

/-- The delivery method `Literal["recogida", "envio"]` from
`schemas.PrepaidCardPurchase`. -/
inductive Delivery where
  | recogida
  | envio
deriving DecidableEq

/-- One stored purchase document, `schemas.PrepaidCardPurchase`.
Timestamps are abstract `Nat` instants. -/
structure PrepaidCardPurchase where
  customer_name : String
  customer_email : String
  customer_phone : String
  amount_selected : Int
  card_price : Int
  total_price : Int
  payment_provider : Provider
  payment_status : PayStatus
  payment_reference : Option String
  delivery_method : Delivery
  created_at : Option Nat
  updated_at : Option Nat
deriving DecidableEq

/-- The pricing configuration `main.PricingConfig`. -/
structure PricingConfig where
  card_issue_price : Int
  topup_options : List Int
  currency : String
  payment_provider : Provider
deriving DecidableEq

/-- Value of `PricingConfig()` built from its field defaults, with the process-wide
provider (`main.py` line 70). -/
def defaultPricingConfig (provider : Provider) : PricingConfig :=
  { card_issue_price := 5
    topup_options := [10, 20, 30, 50]
    currency := "eur"
    payment_provider := provider }

/-- Handler of `GET /api/config` (`main.py` lines 73-75). -/
def get_config (provider : Provider) : PricingConfig :=
  defaultPricingConfig provider

/-- Request body of the checkout endpoint, `main.CreateCheckoutPayload`. -/
structure CreateCheckoutPayload where
  name : String
  email : String
  phone : String
  amount : Int
  delivery_method : Delivery
deriving DecidableEq

/-- Response body of the checkout endpoint, `main.CheckoutResponse`. -/
structure CheckoutResponse where
  provider : Provider
  url : Option String
  message : Option String
  purchase_id : Option String
deriving DecidableEq

/-- An `HTTPException(status_code, detail)` as raised by the handlers. -/
structure HTTPError where
  status_code : Nat
  detail : String
deriving DecidableEq

/-- Rendering by `str()` of a raised `HTTPException` (starlette renders it as
`"{status_code}: {detail}"` with a literal colon-space between them). -/
def httpErrorStr (e : HTTPError) : String :=
  toString e.status_code ++ ": " ++ e.detail

/-- The purchase store: the `prepaidcardpurchase` collection as an
association list from document identifier to document, newest first. -/
abbrev Store := List (String × PrepaidCardPurchase)

/-- Find the document with the given identifier (Mongo `_id` lookup). -/
def Store.lookupRecord (store : Store) (pid : String) : Option PrepaidCardPurchase :=
  match store with
  | [] => none
  | (k, r) :: rest => if k = pid then some r else Store.lookupRecord rest pid

/-- Modelled from the spec: `database.create_document` is imported by
`main.py` but its source is not in the repository snapshot.  Spec section 4.2
says it inserts a new record and returns a system-generated unique
identifier; here the fresh identifier is supplied by the caller and the
insertion is a cons onto the association list. -/
def create_document (store : Store) (pid : String) (rec : PrepaidCardPurchase) : Store :=
  (pid, rec) :: store

/-- The record transformation applied by the `update_one` calls in
`main.py` (lines 176-179 and 210-213): set status `paid`, store the
provider reference, refresh the update timestamp. -/
def paidify (ref : String) (now : Nat) (r : PrepaidCardPurchase) : PrepaidCardPurchase :=
  { r with payment_status := .paid, payment_reference := some ref, updated_at := some now }

/-- Effect of `db["prepaidcardpurchase"].update_one({_id: pid}, {$set: ...})`:
updates the document with identifier `pid` when present, no-op otherwise
(no upsert).  Identifiers are unique, so mapping over all entries with a
matching key coincides with Mongo's update of the single matching document. -/
def markPaidUpdate (store : Store) (pid ref : String) (now : Nat) : Store :=
  store.map (fun e => (e.1, if e.1 = pid then paidify ref now e.2 else e.2))

/-- The pending purchase document built at `main.py` lines 112-124. -/
def mkPendingPurchase (config : PricingConfig) (provider : Provider)
    (payload : CreateCheckoutPayload) (now : Nat) : PrepaidCardPurchase :=
  { customer_name := payload.name
    customer_email := payload.email
    customer_phone := payload.phone
    amount_selected := payload.amount
    card_price := config.card_issue_price
    total_price := config.card_issue_price + payload.amount
    payment_provider := provider
    payment_status := .pending
    payment_reference := none
    delivery_method := payload.delivery_method
    created_at := some now
    updated_at := some now }

/-- The `success_url` built at `main.py` line 127. -/
def successUrl (frontendUrl : String) (pid : String) : String :=
  frontendUrl ++ "/exito?purchase_id=" ++ pid

/-- Handler of `POST /api/prepaid/create-checkout` (`main.py` lines 103-194).
`sessionCreate` is the outcome of `stripe.checkout.Session.create`: the
session url on success, or the raised exception's message.  In stripe mode
any exception from the external call falls through to the mock block; in
mock mode no external call is made.  Returns the response (or raised
`HTTPException`) together with the post-call store. -/
def create_checkout (provider : Provider) (payload : CreateCheckoutPayload)
    (sessionCreate : Except String String) (store : Store) (pid : String)
    (frontendUrl : String) (now : Nat) :
    Except HTTPError CheckoutResponse × Store :=
  let config := get_config provider
  if payload.amount ∈ config.topup_options then
    let purchase := mkPendingPurchase config provider payload now
    let store1 := create_document store pid purchase
    match provider, sessionCreate with
    | .stripe, .ok sessionUrl =>
      (.ok { provider := .stripe, url := some sessionUrl, message := none,
             purchase_id := some pid }, store1)
    | .stripe, .error _ =>
      (.ok { provider := .mock, url := some (successUrl frontendUrl pid),
             message := some "Pago simulado con éxito", purchase_id := some pid },
       markPaidUpdate store1 pid "mock-ok" now)
    | .mock, _ =>
      (.ok { provider := .mock, url := some (successUrl frontendUrl pid),
             message := some "Pago simulado con éxito", purchase_id := some pid },
       markPaidUpdate store1 pid "mock-ok" now)
  else
    (.error { status_code := 400, detail := "Monto de recarga no válido" }, store)

/-- Metadata `session.metadata` of a retrieved stripe checkout session:
`metadata.get` returns an optional value per key. -/
structure SessionMetadata where
  purchase_id : Option String
  customer_name : Option String
deriving DecidableEq

/-- A session returned by `stripe.checkout.Session.retrieve`.
`customer_email` stands for `session.customer_details.email`; it only
feeds the log-based email stub. -/
structure StripeSession where
  payment_status : String
  metadata : Option SessionMetadata
  customer_email : Option String
deriving DecidableEq

/-- Line 207 of `main.py`: `session.metadata.get("purchase_id") if
session.metadata else purchase_id`. -/
def resolvePid (session : StripeSession) (purchase_id : Option String) : Option String :=
  match session.metadata with
  | some m => m.purchase_id
  | none => purchase_id

/-- The success body `{"status": "ok", "purchase_id": pid}` of the confirm
endpoint. -/
structure ConfirmOk where
  status : String
  purchase_id : String
deriving DecidableEq

/-- What can escape the `try` block of `confirm` in stripe mode: an
exception from `Session.retrieve`, or the handler's own
`HTTPException(400, "Pago no confirmado")` raised inside the `try`. -/
inductive StripeConfirmErr where
  | retrieveErr (msg : String)
  | raised (e : HTTPError)
deriving DecidableEq

/-- Value of `str(e)` for an exception caught by the blanket handler at
`main.py` line 229. -/
def stripeErrMessage : StripeConfirmErr → String
  | .retrieveErr msg => msg
  | .raised e => httpErrorStr e

/-- The `try` block of `confirm` in stripe mode (`main.py` lines 203-228).
Python truthiness: the resolved purchase identifier must be non-`None`
and non-empty for the paid branch to run. -/
def confirmStripeTry (sid : String) (purchase_id : Option String)
    (retrieved : Except String StripeSession) (store : Store) (now : Nat) :
    Except StripeConfirmErr (ConfirmOk × Store) :=
  match retrieved with
  | .error msg => .error (.retrieveErr msg)
  | .ok session =>
    match resolvePid session purchase_id with
    | some p =>
      if session.payment_status = "paid" ∧ p ≠ "" then
        .ok ({ status := "ok", purchase_id := p }, markPaidUpdate store p sid now)
      else
        .error (.raised { status_code := 400, detail := "Pago no confirmado" })
    | none => .error (.raised { status_code := 400, detail := "Pago no confirmado" })

/-- Handler of `GET /api/prepaid/confirm` (`main.py` lines 197-235).
`if not session_id` / `if not purchase_id` are Python truthiness tests, so
an absent or empty parameter raises the missing-parameter error.  Every
exception escaping the stripe-mode `try` block, including the handler's
own `HTTPException`, is wrapped by the blanket handler at line 229-230. -/
def confirm (provider : Provider) (session_id purchase_id : Option String)
    (retrieved : Except String StripeSession) (store : Store) (now : Nat) :
    Except HTTPError ConfirmOk × Store :=
  match provider with
  | .stripe =>
    match session_id with
    | none => (.error { status_code := 400, detail := "Falta session_id" }, store)
    | some sid =>
      if sid = "" then
        (.error { status_code := 400, detail := "Falta session_id" }, store)
      else
        match confirmStripeTry sid purchase_id retrieved store now with
        | .ok r => (.ok r.1, r.2)
        | .error e =>
          (.error { status_code := 400,
                    detail := "Error confirmando el pago: " ++ stripeErrMessage e }, store)
  | .mock =>
    match purchase_id with
    | none => (.error { status_code := 400, detail := "Falta purchase_id" }, store)
    | some p =>
      if p = "" then
        (.error { status_code := 400, detail := "Falta purchase_id" }, store)
      else
        (.ok { status := "ok", purchase_id := p }, store)

instance {ε α : Type} [DecidableEq ε] [DecidableEq α] : DecidableEq (Except ε α) := fun a b =>
  match a, b with
  | .ok x, .ok y =>
    if h : x = y then .isTrue (by rw [h]) else .isFalse (by simp [h])
  | .error x, .error y =>
    if h : x = y then .isTrue (by rw [h]) else .isFalse (by simp [h])
  | .ok _, .error _ => .isFalse (by simp)
  | .error _, .ok _ => .isFalse (by simp)

/-- A concrete pending purchase document, used by concrete evaluations. -/
def demoRec : PrepaidCardPurchase :=
  { customer_name := "Ana"
    customer_email := "ana@example.com"
    customer_phone := "600000000"
    amount_selected := 20
    card_price := 5
    total_price := 25
    payment_provider := .stripe
    payment_status := .pending
    payment_reference := none
    delivery_method := .recogida
    created_at := some 0
    updated_at := some 0 }

/-- A concrete valid checkout payload, used by concrete evaluations. -/
def demoPayload : CreateCheckoutPayload :=
  { name := "Ana"
    email := "ana@example.com"
    phone := "600000000"
    amount := 20
    delivery_method := .recogida }

theorem lookupRecord_markPaidUpdate (store : Store) (pid ref : String) (now : Nat)
    (id : String) :
    Store.lookupRecord (markPaidUpdate store pid ref now) id =
      if id = pid then (Store.lookupRecord store id).map (paidify ref now)
      else Store.lookupRecord store id := by
  induction store with
  | nil => by_cases h : id = pid <;> simp [markPaidUpdate, Store.lookupRecord, h]
  | cons e rest ih =>
    obtain ⟨k, r⟩ := e
    simp only [markPaidUpdate] at ih ⊢
    simp only [List.map_cons]
    by_cases hid : k = id
    · subst hid
      by_cases hk : k = pid <;> simp [Store.lookupRecord, hk]
    · simp [Store.lookupRecord, hid, ih]

theorem lookupRecord_create_then_markPaid (store : Store) (pid : String)
    (rec : PrepaidCardPurchase) (ref : String) (now : Nat) :
    Store.lookupRecord (markPaidUpdate (create_document store pid rec) pid ref now) pid =
      some (paidify ref now rec) := by
  rw [lookupRecord_markPaidUpdate]
  simp [create_document, Store.lookupRecord]

/-- C9: `get_config` never fails (it is a total function) and always returns
the default pricing configuration: issuance price 5, top-up options
[10, 20, 30, 50], currency "eur", and the process-wide provider variant. -/
theorem get_config_default (provider : Provider) :
    get_config provider =
      { card_issue_price := 5, topup_options := [10, 20, 30, 50],
        currency := "eur", payment_provider := provider } :=
  rfl

/-- C5: a checkout request whose amount is not in the configured top-up set
fails with the invalid-amount error (HTTP 400) and leaves the store
unchanged, so no purchase record is created. -/
theorem create_checkout_invalid_amount (provider : Provider)
    (payload : CreateCheckoutPayload) (sessionCreate : Except String String)
    (store : Store) (pid frontendUrl : String) (now : Nat)
    (h : payload.amount ∉ (get_config provider).topup_options) :
    create_checkout provider payload sessionCreate store pid frontendUrl now =
      (.error { status_code := 400, detail := "Monto de recarga no válido" }, store) := by
  simp only [create_checkout]
  rw [if_neg h]

theorem create_checkout_invalid_amount_witness :
    ({ demoPayload with amount := 15 }).amount ∉ (get_config .mock).topup_options ∧
      create_checkout .mock { demoPayload with amount := 15 } (.error "boom") [] "p1"
          "http://localhost:3000" 0 =
        (.error { status_code := 400, detail := "Monto de recarga no válido" }, []) :=
  ⟨by decide,
   create_checkout_invalid_amount .mock { demoPayload with amount := 15 } (.error "boom")
     [] "p1" "http://localhost:3000" 0 (by decide)⟩

/-- C1: in stripe mode, when the external session-creation call raises,
`create_checkout` still returns a success response with provider `mock`,
and the stored purchase record is marked `paid` with reference `mock-ok`,
despite the requested provider being stripe. -/
theorem create_checkout_stripe_error_falls_back
    (payload : CreateCheckoutPayload) (errMsg : String) (store : Store)
    (pid frontendUrl : String) (now : Nat)
    (hamount : payload.amount ∈ (get_config .stripe).topup_options) :
    (create_checkout .stripe payload (.error errMsg) store pid frontendUrl now).1 =
      .ok { provider := .mock, url := some (successUrl frontendUrl pid),
            message := some "Pago simulado con éxito", purchase_id := some pid } ∧
    ∃ rec,
      Store.lookupRecord
          (create_checkout .stripe payload (.error errMsg) store pid frontendUrl now).2 pid =
        some rec ∧
      rec.payment_status = .paid ∧ rec.payment_reference = some "mock-ok" := by
  refine ⟨?_, paidify "mock-ok" now (mkPendingPurchase (get_config .stripe) .stripe payload now),
    ?_, rfl, rfl⟩
  · simp only [create_checkout]
    rw [if_pos hamount]
  · simp only [create_checkout]
    rw [if_pos hamount]
    exact lookupRecord_create_then_markPaid store pid
      (mkPendingPurchase (get_config .stripe) .stripe payload now) "mock-ok" now

theorem create_checkout_stripe_error_falls_back_witness :
    (create_checkout .stripe demoPayload (.error "boom") [] "p1" "http://localhost:3000" 0).1 =
      .ok { provider := .mock, url := some (successUrl "http://localhost:3000" "p1"),
            message := some "Pago simulado con éxito", purchase_id := some "p1" } ∧
    ∃ rec,
      Store.lookupRecord
          (create_checkout .stripe demoPayload (.error "boom") [] "p1"
            "http://localhost:3000" 0).2 "p1" =
        some rec ∧
      rec.payment_status = .paid ∧ rec.payment_reference = some "mock-ok" :=
  create_checkout_stripe_error_falls_back demoPayload "boom" [] "p1" "http://localhost:3000" 0
    (by decide)

/-- C3: in mock mode, for every checkout request whose amount is in the
configured top-up set, immediately after `create_checkout` returns the
created purchase record has `payment_status = paid` and
`payment_reference = "mock-ok"`. -/
theorem create_checkout_mock_marks_paid
    (payload : CreateCheckoutPayload) (sessionCreate : Except String String)
    (store : Store) (pid frontendUrl : String) (now : Nat)
    (hamount : payload.amount ∈ (get_config .mock).topup_options) :
    ∃ rec,
      Store.lookupRecord
          (create_checkout .mock payload sessionCreate store pid frontendUrl now).2 pid =
        some rec ∧
      rec.payment_status = .paid ∧ rec.payment_reference = some "mock-ok" := by
  refine ⟨paidify "mock-ok" now (mkPendingPurchase (get_config .mock) .mock payload now),
    ?_, rfl, rfl⟩
  simp only [create_checkout]
  rw [if_pos hamount]
  exact lookupRecord_create_then_markPaid store pid
    (mkPendingPurchase (get_config .mock) .mock payload now) "mock-ok" now

theorem create_checkout_mock_marks_paid_witness :
    ∃ rec,
      Store.lookupRecord
          (create_checkout .mock demoPayload (.error "unused") [] "p1"
            "http://localhost:3000" 0).2 "p1" =
        some rec ∧
      rec.payment_status = .paid ∧ rec.payment_reference = some "mock-ok" :=
  create_checkout_mock_marks_paid demoPayload (.error "unused") [] "p1" "http://localhost:3000" 0
    (by decide)

/-- C4: in mock mode, `confirm` with any non-empty purchase identifier
(including one never created) echoes `{status: ok, purchase_id}`: the
result does not depend on the store contents and the store is returned
unchanged, so no lookup or mutation of the purchase store happens. -/
theorem confirm_mock_echoes (session_id : Option String) (p : String)
    (retrieved : Except String StripeSession) (store : Store) (now : Nat)
    (hp : p ≠ "") :
    confirm .mock session_id (some p) retrieved store now =
      (.ok { status := "ok", purchase_id := p }, store) := by
  simp [confirm, hp]

theorem confirm_mock_echoes_witness :
    confirm .mock none (some "never-created") (.error "unused") [("a", demoRec)] 0 =
      (.ok { status := "ok", purchase_id := "never-created" }, [("a", demoRec)]) :=
  confirm_mock_echoes none "never-created" (.error "unused") [("a", demoRec)] 0 (by decide)

/-- C10: in stripe mode, when the retrieved session is paid but carries no
metadata, `confirm` falls back to the caller-supplied `purchase_id` query
parameter and marks that record paid, for any store and any identifier,
with no cross-check that the identifier belongs to the session. -/
theorem confirm_stripe_no_metadata_uses_query_pid (sid p : String)
    (email : Option String) (store : Store) (now : Nat)
    (hsid : sid ≠ "") (hp : p ≠ "") :
    confirm .stripe (some sid) (some p)
        (.ok { payment_status := "paid", metadata := none, customer_email := email })
        store now =
      (.ok { status := "ok", purchase_id := p }, markPaidUpdate store p sid now) := by
  simp [confirm, confirmStripeTry, resolvePid, hsid, hp]

theorem confirm_stripe_no_metadata_uses_query_pid_witness :
    confirm .stripe (some "sess_1") (some "ghost")
        (.ok { payment_status := "paid", metadata := none, customer_email := none })
        [] 0 =
      (.ok { status := "ok", purchase_id := "ghost" }, markPaidUpdate [] "ghost" "sess_1" 0) :=
  confirm_stripe_no_metadata_uses_query_pid "sess_1" "ghost" none [] 0 (by decide) (by decide)

/-- C2 (code bug): in stripe mode, a retrieved session with a non-paid
status makes `confirm` fail with HTTP 400, but the error surfaced is the
generic wrapper `"Error confirmando el pago: 400: Pago no confirmado"`
rather than the plain `"Pago no confirmado"`: the handler's own
`HTTPException` is raised inside the `try` block and caught by its own
blanket `except`.  The store is left unchanged. -/
theorem confirm_stripe_nonpaid_wrapped_error :
    confirm .stripe (some "sess_1") none
        (.ok { payment_status := "unpaid", metadata := none, customer_email := none })
        [("a", demoRec)] 7 =
      (.error { status_code := 400,
                detail := "Error confirmando el pago: 400: Pago no confirmado" },
       [("a", demoRec)]) := by
  decide

/-- C6: every purchase record created by `create_checkout` (looked up at
the returned identifier, on every success path) satisfies
`total_price = card_price + amount_selected`. -/
theorem create_checkout_total_price (provider : Provider)
    (payload : CreateCheckoutPayload) (sessionCreate : Except String String)
    (store : Store) (pid frontendUrl : String) (now : Nat)
    (resp : CheckoutResponse) (store2 : Store)
    (hok : create_checkout provider payload sessionCreate store pid frontendUrl now =
      (.ok resp, store2)) :
    ∃ rec, Store.lookupRecord store2 pid = some rec ∧
      rec.total_price = rec.card_price + rec.amount_selected := by
  by_cases hmem : payload.amount ∈ (get_config provider).topup_options
  · simp only [create_checkout] at hok
    rw [if_pos hmem] at hok
    cases provider with
    | stripe =>
      cases sessionCreate with
      | ok u =>
        rw [Prod.mk.injEq] at hok
        obtain ⟨-, h2⟩ := hok
        refine ⟨mkPendingPurchase (get_config .stripe) .stripe payload now, ?_, rfl⟩
        rw [← h2]
        simp [create_document, Store.lookupRecord]
      | error m =>
        rw [Prod.mk.injEq] at hok
        obtain ⟨-, h2⟩ := hok
        refine ⟨paidify "mock-ok" now
          (mkPendingPurchase (get_config .stripe) .stripe payload now), ?_, rfl⟩
        rw [← h2]
        exact lookupRecord_create_then_markPaid store pid
          (mkPendingPurchase (get_config .stripe) .stripe payload now) "mock-ok" now
    | mock =>
      rw [Prod.mk.injEq] at hok
      obtain ⟨-, h2⟩ := hok
      refine ⟨paidify "mock-ok" now
        (mkPendingPurchase (get_config .mock) .mock payload now), ?_, rfl⟩
      rw [← h2]
      exact lookupRecord_create_then_markPaid store pid
        (mkPendingPurchase (get_config .mock) .mock payload now) "mock-ok" now
  · simp only [create_checkout] at hok
    rw [if_neg hmem] at hok
    rw [Prod.mk.injEq] at hok
    exact absurd hok.1 (by simp)

theorem create_checkout_total_price_witness :
    ∃ rec,
      Store.lookupRecord
          (markPaidUpdate
            (create_document [] "p1" (mkPendingPurchase (get_config .mock) .mock demoPayload 0))
            "p1" "mock-ok" 0) "p1" =
        some rec ∧
      rec.total_price = rec.card_price + rec.amount_selected :=
  create_checkout_total_price .mock demoPayload (.error "unused") [] "p1"
    "http://localhost:3000" 0
    { provider := .mock, url := some (successUrl "http://localhost:3000" "p1"),
      message := some "Pago simulado con éxito", purchase_id := some "p1" }
    (markPaidUpdate
      (create_document [] "p1" (mkPendingPurchase (get_config .mock) .mock demoPayload 0))
      "p1" "mock-ok" 0)
    (by decide)

theorem create_checkout_snd_cases (provider : Provider) (payload : CreateCheckoutPayload)
    (sessionCreate : Except String String) (store : Store) (pid frontendUrl : String)
    (now : Nat) :
    (create_checkout provider payload sessionCreate store pid frontendUrl now).2 = store ∨
    (create_checkout provider payload sessionCreate store pid frontendUrl now).2 =
      create_document store pid (mkPendingPurchase (get_config provider) provider payload now) ∨
    (create_checkout provider payload sessionCreate store pid frontendUrl now).2 =
      markPaidUpdate
        (create_document store pid (mkPendingPurchase (get_config provider) provider payload now))
        pid "mock-ok" now := by
  by_cases hmem : payload.amount ∈ (get_config provider).topup_options
  · cases provider with
    | stripe =>
      cases sessionCreate with
      | ok u =>
        refine .inr (.inl ?_)
        simp only [create_checkout]
        rw [if_pos hmem]
      | error m =>
        refine .inr (.inr ?_)
        simp only [create_checkout]
        rw [if_pos hmem]
    | mock =>
      refine .inr (.inr ?_)
      simp only [create_checkout]
      rw [if_pos hmem]
  · refine .inl ?_
    simp only [create_checkout]
    rw [if_neg hmem]

theorem confirm_snd_cases (provider : Provider) (sid pidArg : Option String)
    (retrieved : Except String StripeSession) (store : Store) (now : Nat) :
    (confirm provider sid pidArg retrieved store now).2 = store ∨
    ∃ p ref2, (confirm provider sid pidArg retrieved store now).2 =
      markPaidUpdate store p ref2 now := by
  cases provider with
  | mock =>
    cases pidArg with
    | none => exact .inl rfl
    | some p =>
      by_cases hp : p = "" <;> refine .inl ?_ <;> simp [confirm, hp]
  | stripe =>
    cases sid with
    | none => exact .inl rfl
    | some s =>
      by_cases hs : s = ""
      · refine .inl ?_
        simp [confirm, hs]
      · rcases retrieved with m | session
        · refine .inl ?_
          simp [confirm, confirmStripeTry, hs]
        · rcases hpid : resolvePid session pidArg with - | p
          · refine .inl ?_
            simp [confirm, confirmStripeTry, hs, hpid]
          · by_cases hcond : session.payment_status = "paid" ∧ p ≠ ""
            · refine .inr ⟨p, s, ?_⟩
              simp [confirm, confirmStripeTry, hs, hpid, hcond]
            · refine .inl ?_
              simp [confirm, confirmStripeTry, hs, hpid, hcond]

theorem lookupRecord_markPaidUpdate_preserves (store : Store) (p ref : String) (now : Nat)
    (id : String) (r r2 : PrepaidCardPurchase)
    (hr : Store.lookupRecord store id = some r)
    (hr2 : Store.lookupRecord (markPaidUpdate store p ref now) id = some r2) :
    r2 = r ∨ r2.payment_status = .paid := by
  rw [lookupRecord_markPaidUpdate] at hr2
  by_cases h : id = p
  · rw [if_pos h, hr] at hr2
    right
    have h3 : paidify ref now r = r2 := by simpa using hr2
    rw [← h3]
    rfl
  · rw [if_neg h, hr] at hr2
    left
    exact (Option.some.inj hr2).symm

/-- C7: `payment_status` starts at `pending` (the document built by
checkout creation is pending), and no operation ever changes an existing
record's status except to `paid`: across `create_checkout` (with a fresh
identifier) and both variants of `confirm`, every previously stored record
is either untouched or set to `paid`, never back to `pending`. -/
theorem payment_status_transitions :
    (∀ config provider payload now,
        (mkPendingPurchase config provider payload now).payment_status = .pending) ∧
    (∀ provider payload sessionCreate store pid frontendUrl now id r r2,
        Store.lookupRecord store pid = none →
        Store.lookupRecord store id = some r →
        Store.lookupRecord
            (create_checkout provider payload sessionCreate store pid frontendUrl now).2 id =
          some r2 →
        r2 = r ∨ r2.payment_status = .paid) ∧
    (∀ provider sid pidArg retrieved store now id r r2,
        Store.lookupRecord store id = some r →
        Store.lookupRecord (confirm provider sid pidArg retrieved store now).2 id = some r2 →
        r2 = r ∨ r2.payment_status = .paid) := by
  refine ⟨fun _ _ _ _ => rfl, ?_, ?_⟩
  · intro provider payload sessionCreate store pid frontendUrl now id r r2 hfresh hr hr2
    have hne : ¬ pid = id := by
      intro h
      rw [h, hr] at hfresh
      exact Option.noConfusion hfresh
    have hr1 : Store.lookupRecord
        (create_document store pid (mkPendingPurchase (get_config provider) provider payload now))
        id = some r := by
      simp [create_document, Store.lookupRecord, hne, hr]
    rcases create_checkout_snd_cases provider payload sessionCreate store pid frontendUrl now
      with h | h | h <;> rw [h] at hr2
    · rw [hr] at hr2
      exact .inl (Option.some.inj hr2).symm
    · rw [hr1] at hr2
      exact .inl (Option.some.inj hr2).symm
    · exact lookupRecord_markPaidUpdate_preserves _ pid "mock-ok" now id r r2 hr1 hr2
  · intro provider sid pidArg retrieved store now id r r2 hr hr2
    rcases confirm_snd_cases provider sid pidArg retrieved store now with h | ⟨p, ref2, h⟩ <;>
      rw [h] at hr2
    · rw [hr] at hr2
      exact .inl (Option.some.inj hr2).symm
    · exact lookupRecord_markPaidUpdate_preserves store p ref2 now id r r2 hr hr2

theorem payment_status_transitions_witness :
    demoRec = demoRec ∨ demoRec.payment_status = .paid :=
  payment_status_transitions.2.2 .mock none (some "x") (.error "e") [("a", demoRec)] 0 "a"
    demoRec demoRec (by decide) (by decide)

/-- The confirm endpoint's missing-parameter failure: an HTTP 400 whose
detail is one of the two `Falta ...` messages. -/
def isMissingParamErr (r : Except HTTPError ConfirmOk) : Prop :=
  r = .error { status_code := 400, detail := "Falta session_id" } ∨
  r = .error { status_code := 400, detail := "Falta purchase_id" }

theorem wrapped_confirm_error_ne_missing (m : String) :
    "Error confirmando el pago: " ++ m ≠ "Falta session_id" ∧
    "Error confirmando el pago: " ++ m ≠ "Falta purchase_id" := by
  have hpre : ("Error confirmando el pago: " : String).length = 27 := by decide
  have h1 : ("Falta session_id" : String).length = 16 := by decide
  have h2 : ("Falta purchase_id" : String).length = 17 := by decide
  constructor <;> intro h <;> have hl := congrArg String.length h <;>
    rw [String.length_append] at hl <;> omega

theorem not_missing_of_wrapped (m : String) :
    ¬ isMissingParamErr
        (.error { status_code := 400, detail := "Error confirmando el pago: " ++ m }) := by
  rintro (h | h)
  · have h2 : "Error confirmando el pago: " ++ m = "Falta session_id" := by
      injection h with h1
      exact congrArg HTTPError.detail h1
    exact (wrapped_confirm_error_ne_missing m).1 h2
  · have h2 : "Error confirmando el pago: " ++ m = "Falta purchase_id" := by
      injection h with h1
      exact congrArg HTTPError.detail h1
    exact (wrapped_confirm_error_ne_missing m).2 h2

/-- C8 counterexample: in mock mode a present-but-empty `purchase_id`
(query `?purchase_id=`) also fails with the missing-parameter error, so
the failure is not *exactly* when the parameter is absent. -/
theorem confirm_missing_param_counterexample :
    isMissingParamErr (confirm .mock none (some "") (.error "boom") [] 0).1 ∧
      (some "" : Option String) ≠ none := by
  constructor
  · exact Or.inr rfl
  · simp

/-- C8 amended: `confirm` fails with the missing-parameter error exactly
when its mode-required parameter is absent or empty (Python falsiness):
`session_id` in stripe mode, `purchase_id` in mock mode. -/
theorem confirm_missing_param_iff (provider : Provider) (sid pidArg : Option String)
    (retrieved : Except String StripeSession) (store : Store) (now : Nat) :
    isMissingParamErr (confirm provider sid pidArg retrieved store now).1 ↔
      ((provider = .stripe ∧ (sid = none ∨ sid = some "")) ∨
       (provider = .mock ∧ (pidArg = none ∨ pidArg = some ""))) := by
  cases provider with
  | stripe =>
    cases sid with
    | none => simp [confirm, isMissingParamErr]
    | some s =>
      by_cases hs : s = ""
      · subst hs
        simp [confirm, isMissingParamErr]
      · rcases hres : confirmStripeTry s pidArg retrieved store now with e | r
        · have hL : (confirm .stripe (some s) pidArg retrieved store now).1 =
              .error { status_code := 400,
                       detail := "Error confirmando el pago: " ++ stripeErrMessage e } := by
            simp [confirm, hs, hres]
          rw [hL]
          constructor
          · intro h
            exact absurd h (not_missing_of_wrapped (stripeErrMessage e))
          · rintro (⟨-, h | h⟩ | ⟨h, -⟩)
            · exact Option.noConfusion h
            · exact absurd (Option.some.inj h) hs
            · exact Provider.noConfusion h
        · have hL : (confirm .stripe (some s) pidArg retrieved store now).1 = .ok r.1 := by
            simp [confirm, hs, hres]
          rw [hL]
          constructor
          · rintro (h | h) <;> exact Except.noConfusion h
          · rintro (⟨-, h | h⟩ | ⟨h, -⟩)
            · exact Option.noConfusion h
            · exact absurd (Option.some.inj h) hs
            · exact Provider.noConfusion h
  | mock =>
    cases pidArg with
    | none => simp [confirm, isMissingParamErr]
    | some p =>
      by_cases hp : p = ""
      · subst hp
        simp [confirm, isMissingParamErr]
      · have hL : (confirm .mock sid (some p) retrieved store now).1 =
            .ok { status := "ok", purchase_id := p } := by
          simp [confirm, hp]
        rw [hL]
        constructor
        · rintro (h | h) <;> exact Except.noConfusion h
        · rintro (⟨h, -⟩ | ⟨-, h | h⟩)
          · exact Provider.noConfusion h
          · exact Option.noConfusion h
          · exact absurd (Option.some.inj h) hp

theorem confirm_missing_param_iff_witness :
    isMissingParamErr (confirm .stripe none (some "p") (.error "boom") [] 0).1 ↔
      ((Provider.stripe = .stripe ∧
          ((none : Option String) = none ∨ (none : Option String) = some "")) ∨
       (Provider.stripe = .mock ∧
          ((some "p" : Option String) = none ∨ (some "p" : Option String) = some ""))) :=
  confirm_missing_param_iff .stripe none (some "p") (.error "boom") [] 0

end PrepaidBackend
